import Mathlib

set_option maxRecDepth 10000

/-! Verification of the gogpsdo GPSDO-to-chrony bridge (`gogpsdo.go`).

Shallow embedding conventions:
* a serial read buffer is a `List Nat` of byte values (each in 0–255);
* Go `int` / `int64` arithmetic is `Int` (all values here are far from
  64-bit overflow);
* every `time.Time` constructed by the parser has zero nanoseconds
  (`time.Date` is always called with nsec = 0 and `AddDate` preserves it),
  so a timestamp is represented by its Unix second count (`Int`); the
  civil-calendar conversions of Go's `time` package (proleptic Gregorian
  calendar) are embedded as day-number arithmetic below;
* the `ParseTime` field (`time.Now()` at decode time, a wall-clock
  diagnostic that is not a function of the input buffer) is omitted from
  the embedded sample record;
* the fallible parser returns `Option`, mirroring the `nil` / non-`nil`
  pointer result of `parseZ3805APacket`.
-/

/-- The GPSDO operational state, from the `GPSDOStatus` enumeration in
`gogpsdo.go` (constructors keep the Go names minus the `GPSDO` prefix of
each constant). -/
inductive GPSDOStatus where
  | PowerUp
  | Holdover
  | Locked
  | Unknown
deriving DecidableEq, Repr

/-- Parsed data from the HP Z3805A GPSDO, embedding the Go struct
`Z3805AData`. `Timestamp` is the Unix second count of the `time.Time`
field (always a whole second, see module comment); the wall-clock
`ParseTime` diagnostic field is omitted. -/
structure Z3805AData where
  Year : Int
  DayOfYear : Int
  Hour : Int
  Minute : Int
  Second : Int
  LeapSeconds : Int
  Status : GPSDOStatus
  Valid : Bool
  Timestamp : Int
deriving DecidableEq, Repr

/-- Day number (days since the Unix epoch 1970-01-01) of January 1 of
year `y` in the proleptic Gregorian calendar. Embeds the date-to-absolute
conversion Go's `time.Date(y, 1, 1, …, time.UTC)` performs. Since the
month is January, the algorithm's shifted year is `y - 1`. -/
def civilDaysOfJan1 (y : Int) : Int :=
  let yp := y - 1
  let era := (if 0 ≤ yp then yp else yp - 399) / 400
  let yoe := yp - era * 400
  let doe := yoe * 365 + yoe / 4 - yoe / 100 + 306
  era * 146097 + doe - 719468

/-- Calendar year containing day number `z` (days since the Unix epoch)
in the proleptic Gregorian calendar. Embeds Go's `time.Time.Year()`. -/
def civilYearOf (z : Int) : Int :=
  let z2 := z + 719468
  let era := (if 0 ≤ z2 then z2 else z2 - 146096) / 146097
  let doe := z2 - era * 146097
  let yoe := (doe - doe / 1460 + doe / 36524 - doe / 146096) / 365
  let y := yoe + era * 400
  let doy := doe - (365 * yoe + yoe / 4 - yoe / 100)
  let mp := (5 * doy + 2) / 153
  let m := if mp < 10 then mp + 3 else mp - 9
  if m ≤ 2 then y + 1 else y

/-- `year := 2000 + int(data[0])*10 + int(data[1])` of `parseZ3805APacket`. -/
def decYear (data : List Nat) : Int :=
  2000 + (data.getD 0 0 : Int) * 10 + (data.getD 1 0 : Int)

/-- `dayOfYear := int(data[2])*100 + int(data[3])*10 + int(data[4])`. -/
def decDayOfYear (data : List Nat) : Int :=
  (data.getD 2 0 : Int) * 100 + (data.getD 3 0 : Int) * 10 + (data.getD 4 0 : Int)

/-- `hour := int(data[5])*10 + int(data[6])`. -/
def decHour (data : List Nat) : Int :=
  (data.getD 5 0 : Int) * 10 + (data.getD 6 0 : Int)

/-- `minute := int(data[7])*10 + int(data[8])`. -/
def decMinute (data : List Nat) : Int :=
  (data.getD 7 0 : Int) * 10 + (data.getD 8 0 : Int)

/-- `second := int(data[9])*10 + int(data[10])`. -/
def decSecond (data : List Nat) : Int :=
  (data.getD 9 0 : Int) * 10 + (data.getD 10 0 : Int)

/-- `leapSeconds := int(data[11])*10 + int(data[12])`. -/
def decLeapSeconds (data : List Nat) : Int :=
  (data.getD 11 0 : Int) * 10 + (data.getD 12 0 : Int)

/-- `statusVal := int(data[13])*10 + int(data[14])`. -/
def decStatusVal (data : List Nat) : Int :=
  (data.getD 13 0 : Int) * 10 + (data.getD 14 0 : Int)

/-- The `switch statusVal` of `parseZ3805APacket`: 0 ⇒ Locked,
10 ⇒ PowerUp, 100 ⇒ Holdover, anything else ⇒ Unknown. -/
def classifyStatus (statusVal : Int) : GPSDOStatus :=
  if statusVal = 0 then GPSDOStatus.Locked
  else if statusVal = 10 then GPSDOStatus.PowerUp
  else if statusVal = 100 then GPSDOStatus.Holdover
  else GPSDOStatus.Unknown

/-- Construction of the `Z3805AData` result from the decoded field values,
embedding lines 97–137 of `parseZ3805APacket`: status classification,
timestamp construction (`time.Date(year,1,1).AddDate(0,0,dayOfYear-1)`
combined with hour/minute/second), the GPS week-rollover fix
(`AddDate(0, 0, 7168)` plus `Year()` / `YearDay()` recomputation when
`year < 2020`), and the validity flag
`status == GPSDOLocked || status == GPSDOHoldover`. -/
def buildSample (year dayOfYear hour minute second leapSeconds statusVal : Int) : Z3805AData :=
  let status := classifyStatus statusVal
  let valid : Bool := decide (status = GPSDOStatus.Locked) || decide (status = GPSDOStatus.Holdover)
  let day := civilDaysOfJan1 year + (dayOfYear - 1)
  let ts := day * 86400 + hour * 3600 + minute * 60 + second
  if year < 2020 then
    let day2 := day + 7168
    let year2 := civilYearOf day2
    { Year := year2
      DayOfYear := day2 - civilDaysOfJan1 year2 + 1
      Hour := hour
      Minute := minute
      Second := second
      LeapSeconds := leapSeconds
      Status := status
      Valid := valid
      Timestamp := ts + 7168 * 86400 }
  else
    { Year := year
      DayOfYear := dayOfYear
      Hour := hour
      Minute := minute
      Second := second
      LeapSeconds := leapSeconds
      Status := status
      Valid := valid
      Timestamp := ts }

/-- Embeds `parseZ3805APacket` of `gogpsdo.go`: reject a buffer whose
length is not 16 or whose byte 15 is not 0x0D, decode the weighted digit
fields, reject out-of-range field values, and otherwise build the sample. -/
def parseZ3805APacket (data : List Nat) : Option Z3805AData :=
  if data.length = 16 ∧ data.getD 15 0 = 0x0D then
    if decYear data < 2000 ∨ decYear data > 2099 ∨
        decDayOfYear data < 1 ∨ decDayOfYear data > 366 ∨
        decHour data > 23 ∨ decMinute data > 59 ∨ decSecond data > 59 then
      none
    else
      some (buildSample (decYear data) (decDayOfYear data) (decHour data) (decMinute data)
        (decSecond data) (decLeapSeconds data) (decStatusVal data))
  else
    none

/-- The timestamp `parseZ3805APacket` computes before the rollover fix
(line 113): start of `decYear` plus `decDayOfYear - 1` days, plus the
time of day. -/
def uncorrectedTimestamp (data : List Nat) : Int :=
  (civilDaysOfJan1 (decYear data) + (decDayOfYear data - 1)) * 86400 +
    decHour data * 3600 + decMinute data * 60 + decSecond data

/-- Little-endian byte list of an 8-byte unsigned value. -/
def le64 (u : Nat) : List Nat :=
  [u % 256, u / 256 % 256, u / 256 ^ 2 % 256, u / 256 ^ 3 % 256,
   u / 256 ^ 4 % 256, u / 256 ^ 5 % 256, u / 256 ^ 6 % 256, u / 256 ^ 7 % 256]

/-- Little-endian encoding of an `int64` field as written by
`binary.Write(buf, binary.LittleEndian, …)` (two's complement). -/
def int64le (v : Int) : List Nat := le64 ((v % (2 ^ 64 : Int)).toNat)

/-- Little-endian byte list of a 4-byte unsigned value. -/
def le32 (u : Nat) : List Nat :=
  [u % 256, u / 256 % 256, u / 256 ^ 2 % 256, u / 256 ^ 3 % 256]

/-- Little-endian encoding of an `int32` field (two's complement). -/
def int32le (v : Int) : List Nat := le32 ((v % (2 ^ 32 : Int)).toNat)

/-- IEEE-754 binary64 little-endian encoding of `+0.0`, the only
floating-point value the encoder ever writes (`Offset: 0`). -/
def float64leZero : List Nat := [0, 0, 0, 0, 0, 0, 0, 0]

/-- Byte sequence produced by `binary.Write(buf, binary.LittleEndian, sample)`
for the `sockSample` struct of `gogpsdo.go`: `Tv.Sec` (`int64`, the
timestamp's Unix seconds), `Tv.Usec` (`int64`; `Nanosecond()/1000`, always 0
since parser timestamps are whole seconds), `Offset` (`float64`, 0),
`Pulse`, `Leap`, `Pad` (`int32`, all 0) and `Magic` (`int32`, 0x534F434B).
`encoding/binary` writes the struct fields packed, in order, with no
padding. -/
def encodeSockSample (d : Z3805AData) : List Nat :=
  int64le d.Timestamp ++ int64le 0 ++ float64leZero ++
    int32le 0 ++ int32le 0 ++ int32le 0 ++ int32le 0x534F434B

/-- Embeds `sendChronySample`: a `nil` or invalid sample is dropped before
any encoding (`if data == nil || !data.Valid { return }`); otherwise the
encoded record is the single datagram written to the chrony socket. The
result is the record written, or `none` when nothing is written. -/
def sendChronySample (o : Option Z3805AData) : Option (List Nat) :=
  match o with
  | none => none
  | some d => if d.Valid then some (encodeSockSample d) else none

/-- The spec scenario's literal input buffer
`[0x25,0x05, 0x04,0x03,0x00, 0x12,0x15, 0x30,0x00, 0x00,0x00, 0x00,0x00,
0x00,0x00, 0x0D]`. -/
def specScenarioBuf : List Nat :=
  [0x25, 0x05, 0x04, 0x03, 0x00, 0x12, 0x15, 0x30,
   0x00, 0x00, 0x00, 0x00, 0x00, 0x00, 0x00, 0x0D]

/-- A well-formed telegram with digit-valued bytes for
2025, day 043, 12:15:30, leap 00, status 00. -/
def sampleBuf : List Nat := [2, 5, 0, 4, 3, 1, 2, 1, 5, 3, 0, 0, 0, 0, 0, 13]

/-- The sample `parseZ3805APacket` produces for `sampleBuf`
(2025-043 12:15:30 UTC is Unix second 1739362530). -/
def lockedSample : Z3805AData :=
  { Year := 2025
    DayOfYear := 43
    Hour := 12
    Minute := 15
    Second := 30
    LeapSeconds := 0
    Status := GPSDOStatus.Locked
    Valid := true
    Timestamp := 1739362530 }

/-- An invalid (power-up) sample: `sampleBuf` with status digits 1,0. -/
def powerUpSample : Z3805AData :=
  { Year := 2025
    DayOfYear := 43
    Hour := 12
    Minute := 15
    Second := 30
    LeapSeconds := 0
    Status := GPSDOStatus.PowerUp
    Valid := false
    Timestamp := 1739362530 }

/-- Telegram decoding to year 2000, day 001, 00:00:00: the earliest
pre-rollover date. -/
def rolloverCexBuf : List Nat := [0, 0, 0, 0, 1, 0, 0, 0, 0, 0, 0, 0, 0, 0, 0, 13]

/-- Telegram decoding to year 2019, day 043, 12:15:30 (triggers the
rollover fix). -/
def rolloverWitnessBuf : List Nat := [1, 9, 0, 4, 3, 1, 2, 1, 5, 3, 0, 0, 0, 0, 0, 13]

/-- The corrected sample for `rolloverWitnessBuf`: 2019-043 12:15:30 UTC
(Unix 1549973730) plus 7168 days is 2038-271 12:15:30 UTC (Unix 2169288930). -/
def rolloverWitnessSample : Z3805AData :=
  { Year := 2038
    DayOfYear := 271
    Hour := 12
    Minute := 15
    Second := 30
    LeapSeconds := 0
    Status := GPSDOStatus.Locked
    Valid := true
    Timestamp := 2169288930 }

/-- `sampleBuf` with the terminator byte replaced by 0x0A. -/
def badTermBuf : List Nat := [2, 5, 0, 4, 3, 1, 2, 1, 5, 3, 0, 0, 0, 0, 0, 10]

/-- A 16-byte buffer with terminator 0x0D whose day-of-year decodes to 0. -/
def badDoyBuf : List Nat := [0, 0, 0, 0, 0, 0, 0, 0, 0, 0, 0, 0, 0, 0, 0, 13]

/-- `sampleBuf` with minute bytes (0x00, 0x3B): byte 8 is 59, not a
decimal digit, yet the weighted minute value 0*10+59 = 59 is in range. -/
def nonDigitBuf : List Nat := [2, 5, 0, 4, 3, 1, 2, 0, 59, 3, 0, 0, 0, 0, 0, 13]

/-- For any day number at least 18125 (= Jan 1 2000 + 7168 days), the
containing calendar year is at least 2019. -/
theorem civilYearOf_ge (z : Int) (hz : 18125 ≤ z) : 2019 ≤ civilYearOf z := by
  unfold civilYearOf
  simp only
  split_ifs <;> omega

/-- January 1 of any year from 2000 on is at day number 10957
(= Jan 1 2000) or later. -/
theorem civilDaysOfJan1_lb (y : Int) (hy : 2000 ≤ y) : 10957 ≤ civilDaysOfJan1 y := by
  unfold civilDaysOfJan1
  simp only
  split_ifs <;> omega

/-- Inversion of a successful parse: the guards all passed and the result
is `buildSample` applied to the decoded fields. -/
theorem parseZ3805APacket_eq_some (data : List Nat) (d : Z3805AData)
    (h : parseZ3805APacket data = some d) :
    data.length = 16 ∧ data.getD 15 0 = 0x0D ∧
    2000 ≤ decYear data ∧ decYear data ≤ 2099 ∧
    1 ≤ decDayOfYear data ∧ decDayOfYear data ≤ 366 ∧
    decHour data ≤ 23 ∧ decMinute data ≤ 59 ∧ decSecond data ≤ 59 ∧
    d = buildSample (decYear data) (decDayOfYear data) (decHour data) (decMinute data)
      (decSecond data) (decLeapSeconds data) (decStatusVal data) := by
  unfold parseZ3805APacket at h
  split at h
  case isTrue h1 =>
    split at h
    case isTrue h2 => exact absurd h (by simp)
    case isFalse h2 =>
      push_neg at h2
      obtain ⟨ha, hb, hc, hd2, he, hf, hg⟩ := h2
      exact ⟨h1.1, h1.2, by omega, by omega, by omega, by omega, by omega, by omega, by omega,
        (Option.some_inj.mp h).symm⟩
  case isFalse h1 => exact absurd h (by simp)

/-- The status stored by `buildSample` is `classifyStatus` of the status
code, in both rollover branches. -/
theorem buildSample_Status (year dayOfYear hour minute second leapSeconds statusVal : Int) :
    (buildSample year dayOfYear hour minute second leapSeconds statusVal).Status =
      classifyStatus statusVal := by
  unfold buildSample
  split <;> rfl

/-- The validity flag stored by `buildSample` is exactly
"status is Locked or Holdover", in both rollover branches. -/
theorem buildSample_Valid (year dayOfYear hour minute second leapSeconds statusVal : Int) :
    (buildSample year dayOfYear hour minute second leapSeconds statusVal).Valid =
      (decide (classifyStatus statusVal = GPSDOStatus.Locked) ||
        decide (classifyStatus statusVal = GPSDOStatus.Holdover)) := by
  unfold buildSample
  split <;> rfl

/-- Claim C1 (counterexample): decoding the spec scenario's literal 16-byte
buffer `[0x25,0x05,0x04,0x03,0x00,0x12,0x15,0x30,0,0,0,0,0,0,0,0x0D]` does
NOT succeed: byte 0 is 0x25 = 37, so the decoded year is
2000 + 37*10 + 5 = 2375 > 2099 and the parser returns no result. -/
theorem c1_scenario_as_stated_fails : parseZ3805APacket specScenarioBuf = none := by decide

/-- Claim C1 (amended): with the field values of the scenario encoded as
digit-valued bytes `[2,5, 0,4,3, 1,2, 1,5, 3,0, 0,0, 0,0, 0x0D]`, decoding
succeeds and yields year 2025, day-of-year 43, hour 12, minute 15,
second 30, leap 0, status Locked, validity true, and the timestamp equals
the uncorrected one (no rollover correction applied). -/
theorem c1_scenario_amended :
    parseZ3805APacket sampleBuf = some lockedSample ∧
    lockedSample.Timestamp = uncorrectedTimestamp sampleBuf := by decide

/-- Claim C6: a buffer whose length is not 16 or whose byte 15 is not
0x0D is rejected: decoding returns no result. -/
theorem c6_malformed_rejected (data : List Nat)
    (h : data.length ≠ 16 ∨ data.getD 15 0 ≠ 0x0D) :
    parseZ3805APacket data = none := by
  unfold parseZ3805APacket
  rw [if_neg (fun hc => h.elim (fun hn => hn hc.1) (fun hn => hn hc.2))]

/-- Claim C6 witness: a 16-byte buffer whose terminator is 0x0A instead
of 0x0D is rejected. -/
theorem c6_malformed_rejected_witness : parseZ3805APacket badTermBuf = none :=
  c6_malformed_rejected badTermBuf (Or.inr (by decide))

/-- Claim C7: a 16-byte buffer with terminator 0x0D whose decoded fields
violate any range invariant (year outside [2000, 2099], day-of-year
outside [1, 366], hour outside [0, 23], minute or second outside [0, 59])
is rejected: decoding returns no result. -/
theorem c7_out_of_range_rejected (data : List Nat)
    (hlen : data.length = 16) (hterm : data.getD 15 0 = 0x0D)
    (hout : decYear data < 2000 ∨ 2099 < decYear data ∨
      decDayOfYear data < 1 ∨ 366 < decDayOfYear data ∨
      decHour data < 0 ∨ 23 < decHour data ∨
      decMinute data < 0 ∨ 59 < decMinute data ∨
      decSecond data < 0 ∨ 59 < decSecond data) :
    parseZ3805APacket data = none := by
  have hh0 : 0 ≤ decHour data := by unfold decHour; omega
  have hm0 : 0 ≤ decMinute data := by unfold decMinute; omega
  have hs0 : 0 ≤ decSecond data := by unfold decSecond; omega
  unfold parseZ3805APacket
  rw [if_pos ⟨hlen, hterm⟩, if_pos (by omega)]

/-- Claim C7 witness: the all-zero-fields buffer decodes day-of-year 0,
which is below range, so it is rejected. -/
theorem c7_out_of_range_rejected_witness : parseZ3805APacket badDoyBuf = none :=
  c7_out_of_range_rejected badDoyBuf (by decide) (by decide)
    (Or.inr (Or.inr (Or.inl (by decide))))

/-- Claim C10: the decoder never checks that individual bytes are decimal
digits. The buffer `nonDigitBuf` has minute bytes (0x00, 0x3B) — byte 8 is
0x3B = 59 > 9 — yet decoding succeeds and the resulting sample has
minute 0*10 + 59 = 59, because only the weighted field sums are
range-checked. -/
theorem c10_non_digit_byte_accepted :
    nonDigitBuf.getD 8 0 = 0x3B ∧ 9 < nonDigitBuf.getD 8 0 ∧
    (parseZ3805APacket nonDigitBuf).isSome = true ∧
    (parseZ3805APacket nonDigitBuf).map Z3805AData.Minute = some 59 := by decide

/-- Claim C2 (counterexample): the telegram decoding to year 2000, day 001,
00:00:00 has decoded year < 2020, so the rollover fix fires, but the year
recomputed from the corrected timestamp (2000-01-01 + 7168 days, which is
in August 2019) is 2019, not ≥ 2020. -/
theorem c2_rollover_counterexample :
    decYear rolloverCexBuf = 2000 ∧
    (parseZ3805APacket rolloverCexBuf).map Z3805AData.Year = some 2019 := by decide

/-- Claim C2 (amended): for every telegram that decodes with calendar year
strictly less than 2020, the corrected timestamp equals the originally
computed timestamp plus exactly 7168 days, and the calendar year
recomputed from that corrected timestamp is at least 2019. -/
theorem c2_rollover_amended (data : List Nat) (d : Z3805AData)
    (h : parseZ3805APacket data = some d) (hy : decYear data < 2020) :
    d.Timestamp = uncorrectedTimestamp data + 7168 * 86400 ∧ 2019 ≤ d.Year := by
  obtain ⟨-, -, hy1, -, hd1, -, -, -, -, hd⟩ := parseZ3805APacket_eq_some data d h
  rw [hd]
  unfold buildSample
  simp only
  rw [if_pos hy]
  constructor
  · unfold uncorrectedTimestamp
    ring
  · exact civilYearOf_ge _ (by have := civilDaysOfJan1_lb (decYear data) hy1; omega)

/-- Claim C2 witness: the telegram for 2019-043 12:15:30 decodes with
year 2019 < 2020; its corrected sample (2038-271 12:15:30, Unix
2169288930) is the uncorrected timestamp (Unix 1549973730) plus 7168
days, with recomputed year 2038 ≥ 2019. -/
theorem c2_rollover_amended_witness :
    rolloverWitnessSample.Timestamp = uncorrectedTimestamp rolloverWitnessBuf + 7168 * 86400 ∧
    2019 ≤ rolloverWitnessSample.Year :=
  c2_rollover_amended rolloverWitnessBuf rolloverWitnessSample (by decide) (by decide)

/-- Claim C3 (counterexample): the record the transmitter writes for the
valid sample decoded from `sampleBuf` is 40 bytes long, not 32 (the
`sockSample` struct packs 8+8+8+4+4+4+4 bytes). -/
theorem c3_record_length_counterexample :
    (sendChronySample (parseZ3805APacket sampleBuf)).map List.length = some 40 ∧
    (40 : Nat) ≠ 32 := by decide

/-- Claim C3 (amended): for every valid `Z3805AData` sample, the encoded
sample record written to the daemon socket is exactly 40 bytes long. -/
theorem c3_record_length (d : Z3805AData) (_h : d.Valid = true) :
    (encodeSockSample d).length = 40 := rfl

/-- Claim C3 witness: the concrete valid sample `lockedSample` encodes to
a 40-byte record. -/
theorem c3_record_length_witness : (encodeSockSample lockedSample).length = 40 :=
  c3_record_length lockedSample (by decide)

/-- Claim C4: for every decoded telegram, status code 0 yields Locked and
valid, 10 yields PowerUp and invalid, 100 yields Holdover and valid, any
other status-code value yields Unknown and invalid; validity is true
exactly when the status is Locked or Holdover. -/
theorem c4_status_classification (data : List Nat) (d : Z3805AData)
    (h : parseZ3805APacket data = some d) :
    (decStatusVal data = 0 → d.Status = GPSDOStatus.Locked ∧ d.Valid = true) ∧
    (decStatusVal data = 10 → d.Status = GPSDOStatus.PowerUp ∧ d.Valid = false) ∧
    (decStatusVal data = 100 → d.Status = GPSDOStatus.Holdover ∧ d.Valid = true) ∧
    (decStatusVal data ≠ 0 ∧ decStatusVal data ≠ 10 ∧ decStatusVal data ≠ 100 →
      d.Status = GPSDOStatus.Unknown ∧ d.Valid = false) ∧
    (d.Valid = true ↔ (d.Status = GPSDOStatus.Locked ∨ d.Status = GPSDOStatus.Holdover)) := by
  obtain ⟨-, -, -, -, -, -, -, -, -, hd⟩ := parseZ3805APacket_eq_some data d h
  rw [hd, buildSample_Status, buildSample_Valid]
  unfold classifyStatus
  split_ifs with h0 h10 h100 <;> simp_all

/-- Claim C5: for a `nil` sample and for every sample whose validity flag
is false, the transmit operation encodes nothing and writes nothing to
the socket — no record is ever produced for an invalid sample. -/
theorem c5_invalid_never_sent (o : Option Z3805AData)
    (h : o = none ∨ ∀ d : Z3805AData, o = some d → d.Valid = false) :
    sendChronySample o = none := by
  match o with
  | none => rfl
  | some d =>
    have hv : d.Valid = false := by
      cases h with
      | inl hn => exact absurd hn (by simp)
      | inr hf => exact hf d rfl
    simp [sendChronySample, hv]

/-- Claim C5 witness: the power-up (invalid) sample is dropped: nothing
is written. -/
theorem c5_invalid_never_sent_witness : sendChronySample (some powerUpSample) = none :=
  c5_invalid_never_sent (some powerUpSample)
    (Or.inr (fun d hd => by cases hd; rfl))

/-- Claim C8: in every encoded sample record, the bytes after the two
8-byte timestamp fields are: the 8-byte IEEE-754 little-endian encoding
of offset 0.0, the 4-byte pulse field 0, the 4-byte leap field 0, the
4-byte reserved/padding field 0, and the final 4-byte magic field holding
0x534F434B serialized little-endian (0x4B, 0x43, 0x4F, 0x53). -/
theorem c8_fixed_fields (d : Z3805AData) :
    (encodeSockSample d).drop 16 =
      float64leZero ++ [0, 0, 0, 0] ++ [0, 0, 0, 0] ++ [0, 0, 0, 0] ++
        [0x4B, 0x43, 0x4F, 0x53] := rfl

/-- Claim C9: decoding is a deterministic, total function of a
well-formed in-range input buffer: it always produces a result, and two
parses of the same buffer agree on every (modelled) field — the
`ParseTime` wall-clock diagnostic is the one field outside the embedding,
being the only output not a function of the buffer. -/
theorem c9_parse_deterministic_total (data : List Nat)
    (hlen : data.length = 16) (hterm : data.getD 15 0 = 0x0D)
    (hy1 : 2000 ≤ decYear data) (hy2 : decYear data ≤ 2099)
    (hd1 : 1 ≤ decDayOfYear data) (hd2 : decDayOfYear data ≤ 366)
    (hh : decHour data ≤ 23) (hm : decMinute data ≤ 59) (hs : decSecond data ≤ 59) :
    (parseZ3805APacket data).isSome = true ∧
    ∀ d₁ d₂ : Z3805AData, parseZ3805APacket data = some d₁ →
      parseZ3805APacket data = some d₂ → d₁ = d₂ := by
  constructor
  · unfold parseZ3805APacket
    rw [if_pos ⟨hlen, hterm⟩, if_neg (by omega)]
    rfl
  · intro d₁ d₂ h₁ h₂
    rw [h₁] at h₂
    exact Option.some_inj.mp h₂

/-- Claim C9 witness: the well-formed telegram `sampleBuf` decodes to a
result. -/
theorem c9_parse_deterministic_total_witness : (parseZ3805APacket sampleBuf).isSome = true :=
  (c9_parse_deterministic_total sampleBuf (by decide) (by decide) (by decide) (by decide)
    (by decide) (by decide) (by decide) (by decide) (by decide)).1

/-- Claim C4 witness: the sample decoded from `sampleBuf` (status code 0)
satisfies the classification contract: it is valid exactly because its
status is Locked. -/
theorem c4_status_classification_witness :
    lockedSample.Valid = true ↔
      (lockedSample.Status = GPSDOStatus.Locked ∨ lockedSample.Status = GPSDOStatus.Holdover) :=
  (c4_status_classification sampleBuf lockedSample (by decide)).2.2.2.2
